import Mathlib

/-!
Shallow embedding of `pkg/multicloud/azure/classic_instance.go` (Azure Classic
VM adapter) and proofs about its documented behavior.

Remote interactions (the `SRegion` HTTP client, `Refresh`, `region.del`,
`region.perform`, …) are modelled by passing the outcome of each remote call
as an explicit parameter (`Except String _` for fetches, `Option String` for
calls that only return an error, `none` meaning success). Log emission is
modelled by counting log events in the result. Go `nil` pointers and slices
become `Option`; Go zero values become structure field defaults.
-/

set_option autoImplicit false
set_option linter.unusedVariables false

namespace AzureClassic

/-- Mirrors Go struct `FormattedMessage`. -/
structure FormattedMessage where
  Language : String := ""
  Message : String := ""
deriving Repr, DecidableEq

/-- Mirrors Go struct `GuestAgentStatus`; `time.Time` is abstracted as `Nat`. -/
structure GuestAgentStatus where
  ProtocolVersion : String := ""
  Timestamp : Nat := 0
  GuestAgentVersion : String := ""
  Status : String := ""
  FormattedMessage : FormattedMessage := {}
deriving Repr, DecidableEq

/-- Mirrors Go struct `ClassicVirtualMachineInstanceView` (the live status snapshot). -/
structure ClassicVirtualMachineInstanceView where
  Status : String := ""
  PowerState : String := ""
  PublicIpAddresses : List String := []
  FullyQualifiedDomainName : String := ""
  UpdateDomain : Int := 0
  FaultDomain : Int := 0
  StatusMessage : String := ""
  PrivateIpAddress : String := ""
  InstanceIpAddresses : List String := []
  ComputerName : String := ""
  GuestAgentStatus : GuestAgentStatus := {}
deriving Repr, DecidableEq

/-- Mirrors Go struct `SubResource`; `Type` is a Lean keyword, renamed `Type'`. -/
structure SubResource where
  ID : String := ""
  Name : String := ""
  Type' : String := ""
deriving Repr, DecidableEq

/-- Mirrors Go struct `ClassicDisk`. -/
structure ClassicDisk where
  Lun : Int := 0
  DiskName : String := ""
  Caching : String := ""
  OperatingSystem : String := ""
  IoType : String := ""
  CreatedTime : String := ""
  SourceImageName : String := ""
  VhdUri : String := ""
  DiskSize : Int := 0
  StorageAccount : SubResource := {}
deriving Repr, DecidableEq

/-- Mirrors Go struct `ClassicStorageProfile` (`*[]ClassicDisk` becomes `Option (List _)`). -/
structure ClassicStorageProfile where
  OperatingSystemDisk : ClassicDisk := {}
  DataDisks : Option (List ClassicDisk) := none
deriving Repr, DecidableEq

/-- Mirrors Go struct `ClassicHardwareProfile`. -/
structure ClassicHardwareProfile where
  PlatformGuestAgent : Bool := false
  Size : String := ""
  DeploymentName : String := ""
  DeploymentId : String := ""
  DeploymentLabel : String := ""
  DeploymentLocked : Bool := false
deriving Repr, DecidableEq

/-- Mirrors Go struct `InputEndpoint`. -/
structure InputEndpoint where
  EndpointName : String := ""
  PrivatePort : Int := 0
  PublicPort : Int := 0
  Protocol : String := ""
  EnableDirectServerReturn : Bool := false
deriving Repr, DecidableEq

/-- Mirrors Go struct `InstanceIp`. -/
structure InstanceIp where
  IdleTimeoutInMinutes : Int := 0
  ID : String := ""
  Name : String := ""
  Type' : String := ""
deriving Repr, DecidableEq

/-- Mirrors Go struct `ClassicVirtualNetwork`. -/
structure ClassicVirtualNetwork where
  StaticIpAddress : String := ""
  SubnetNames : List String := []
  ID : String := ""
  Name : String := ""
  Type' : String := ""
deriving Repr, DecidableEq

/-- Mirrors Go struct `ClassicNetworkProfile` (pointer fields become `Option`). -/
structure ClassicNetworkProfile where
  InputEndpoints : Option (List InputEndpoint) := none
  InstanceIps : Option (List InstanceIp) := none
  ReservedIps : Option (List SubResource) := none
  VirtualNetwork : ClassicVirtualNetwork := {}
  NetworkSecurityGroup : Option SubResource := none
deriving Repr, DecidableEq

/-- Mirrors Go struct `ClassicVirtualMachineProperties`. -/
structure ClassicVirtualMachineProperties where
  DomainName : Option SubResource := none
  InstanceView : Option ClassicVirtualMachineInstanceView := none
  NetworkProfile : ClassicNetworkProfile := {}
  HardwareProfile : ClassicHardwareProfile := {}
  StorageProfile : ClassicStorageProfile := {}
deriving Repr, DecidableEq

/-- Mirrors Go struct `SClassicInstance`. The embedded `multicloud.SInstanceBase`,
`AzureTags`, the `host` back-pointer and the `idisks` cache carry no data used by
the functions verified here; the remote calls reached through `host` are modelled
as explicit outcome parameters of each operation. -/
structure SClassicInstance where
  Properties : ClassicVirtualMachineProperties := {}
  ID : String := ""
  Name : String := ""
  Type' : String := ""
  Location : String := ""
deriving Repr, DecidableEq

/-- Modelled from the spec: the normalized status constant the spec calls Ready
(`api.VM_READY`; the `apis/compute` package is outside this file). -/
def VM_READY : String := "ready"

/-- Modelled from the spec: the normalized status constant the spec calls Running
(`api.VM_RUNNING`). -/
def VM_RUNNING : String := "running"

/-- Modelled from the spec: the normalized status constant the spec calls Unknown
(`api.VM_UNKNOWN`). -/
def VM_UNKNOWN : String := "unknown"

/-- The `switch self.Properties.InstanceView.Status` body of `GetStatus`
(classic_instance.go lines 250-262). Returns the normalized status together
with the number of log events emitted by this switch. -/
def getStatusSwitch (raw : String) : String × Nat :=
  if raw = "StoppedDeallocated" then (VM_READY, 0)
  else if raw = "ReadyRole" then (VM_RUNNING, 0)
  else if raw = "Stopped" then (VM_READY, 0)
  else if raw = "RoleStateUnknown" then (VM_UNKNOWN, 0)
  else (VM_UNKNOWN, 1)

/-- Result of `GetStatus`: the returned normalized status, how many `Refresh`
attempts were made, and how many log events were emitted. -/
structure GetStatusOut where
  status : String
  refreshCount : Nat
  logCount : Nat
deriving Repr, DecidableEq

/-- `GetStatus` (classic_instance.go lines 242-263). `refreshResult` is the
outcome of `self.Refresh()` (a fetch of the instance by ID followed by
`jsonutils.Update`): on success it carries the refreshed record. If the view is
still absent after a successful refresh the Go code dereferences a nil pointer;
that crash is modelled as `none`. -/
def GetStatus (self : SClassicInstance)
    (refreshResult : Except String SClassicInstance) : Option GetStatusOut :=
  match self.Properties.InstanceView with
  | some view =>
      let r := getStatusSwitch view.Status
      some ⟨r.1, 0, r.2⟩
  | none =>
      match refreshResult with
      | .error _ => some ⟨VM_UNKNOWN, 1, 1⟩
      | .ok refreshed =>
          match refreshed.Properties.InstanceView with
          | some view =>
              let r := getStatusSwitch view.Status
              some ⟨r.1, 1, r.2⟩
          | none => none

/-- Modelled from the spec: the NIC record built by `getNics`. The type
`SClassicInstanceNic` lives in a sibling file of the package; `getNics` only
fills its `IP` and `ID` fields (the `instance` back-pointer carries no data). -/
structure SClassicInstanceNic where
  IP : String := ""
  ID : String := ""
deriving Repr, DecidableEq

/-- `getNics` (classic_instance.go lines 204-232). `fetchResult` is the outcome
of `GetClassicInstance(self.ID)`. A Go `nil` slice result is the empty list. -/
def getNics (self : SClassicInstance)
    (fetchResult : Except String SClassicInstance) :
    Except String (List SClassicInstanceNic) :=
  match fetchResult with
  | .error err => .error err
  | .ok inst =>
      let networkProfile := inst.Properties.NetworkProfile
      let id :=
        if networkProfile.VirtualNetwork.SubnetNames.length > 0 then
          networkProfile.VirtualNetwork.ID ++ "/" ++ networkProfile.VirtualNetwork.SubnetNames.headD ""
        else ""
      let ip :=
        if inst.Properties.NetworkProfile.VirtualNetwork.StaticIpAddress.length > 0 then
          inst.Properties.NetworkProfile.VirtualNetwork.StaticIpAddress
        else ""
      let filled :=
        match inst.Properties.InstanceView with
        | some view =>
            if (id.length = 0 ∨ ip.length = 0) ∧ view.PrivateIpAddress.length > 0 then
              ((if id.length = 0 then self.ID ++ "/" ++ view.PrivateIpAddress else id),
               (if ip.length = 0 then view.PrivateIpAddress else ip))
            else (id, ip)
        | none => (id, ip)
      if filled.1.length > 0 ∧ filled.2.length > 0 then
        .ok [{ IP := filled.2, ID := filled.1 }]
      else
        .ok []

/-- Written from the spec's words (section 4.3, network identity resolver), to
be compared with `getNics`: (1) a listed subnet name gives
`id = virtualNetworkId / firstSubnetName`; (2) a static IP gives `ip`; (3) a
still-missing field is filled from a present instance view with a non-empty
private IP (`id = instanceId / privateIp`, `ip = privateIp`), never overriding;
(4) the pair is produced only when both components are non-empty. -/
def resolveNetworkIdentity (instanceId : String) (vn : ClassicVirtualNetwork)
    (view : Option ClassicVirtualMachineInstanceView) : Option (String × String) :=
  let id :=
    match vn.SubnetNames with
    | [] => ""
    | n :: _ => vn.ID ++ "/" ++ n
  let ip := vn.StaticIpAddress
  let filled :=
    match view with
    | some v =>
        if (id = "" ∨ ip = "") ∧ v.PrivateIpAddress ≠ "" then
          ((if id = "" then instanceId ++ "/" ++ v.PrivateIpAddress else id),
           (if ip = "" then v.PrivateIpAddress else ip))
        else (id, ip)
    | none => (id, ip)
  if filled.1 ≠ "" ∧ filled.2 ≠ "" then some filled else none

theorem string_length_eq_zero_iff (s : String) : s.length = 0 ↔ s = "" := by
  cases s with
  | mk data =>
      cases data with
      | nil => simp [String.length]
      | cons c cs => simp [String.length, String.ext_iff]

theorem string_length_pos_iff (s : String) : 0 < s.length ↔ s ≠ "" := by
  rw [Nat.pos_iff_ne_zero, not_iff_not]
  exact string_length_eq_zero_iff s

theorem append_slash_ne_empty (a b : String) : a ++ "/" ++ b ≠ "" := by
  intro h
  have h2 := congrArg String.data h
  simp [String.data_append] at h2

/-- C1: `getNics` resolves the network identity exactly as specified: subnet
name gives `id = virtualNetworkId/firstSubnetName`, a static IP gives `ip`, a
missing field is completed (never overridden) from an instance view with a
non-empty private IP as `id = instanceId/privateIp`, `ip = privateIp`, and a
NIC is returned only when both are non-empty, with no error otherwise; a fetch
error is propagated. -/
theorem getNics_matches_resolveNetworkIdentity (self inst : SClassicInstance) :
    (∀ e, getNics self (.error e) = .error e) ∧
    getNics self (.ok inst) =
      .ok (match resolveNetworkIdentity self.ID
              inst.Properties.NetworkProfile.VirtualNetwork
              inst.Properties.InstanceView with
           | some pair => [{ IP := pair.2, ID := pair.1 }]
           | none => []) := by
  refine ⟨fun e => rfl, ?_⟩
  simp only [getNics, resolveNetworkIdentity]
  cases hsn : inst.Properties.NetworkProfile.VirtualNetwork.SubnetNames with
  | nil =>
      cases hv : inst.Properties.InstanceView with
      | none =>
          by_cases hst : inst.Properties.NetworkProfile.VirtualNetwork.StaticIpAddress = "" <;>
            simp_all [string_length_pos_iff, string_length_eq_zero_iff, append_slash_ne_empty]
      | some v =>
          by_cases hst : inst.Properties.NetworkProfile.VirtualNetwork.StaticIpAddress = "" <;>
          by_cases hp : v.PrivateIpAddress = "" <;>
            simp_all [string_length_pos_iff, string_length_eq_zero_iff, append_slash_ne_empty]
  | cons n rest =>
      cases hv : inst.Properties.InstanceView with
      | none =>
          by_cases hst : inst.Properties.NetworkProfile.VirtualNetwork.StaticIpAddress = "" <;>
            simp_all [string_length_pos_iff, string_length_eq_zero_iff, append_slash_ne_empty]
      | some v =>
          by_cases hst : inst.Properties.NetworkProfile.VirtualNetwork.StaticIpAddress = "" <;>
          by_cases hp : v.PrivateIpAddress = "" <;>
            simp_all [string_length_pos_iff, string_length_eq_zero_iff, append_slash_ne_empty]

/-- C2: the status normalizer maps `"StoppedDeallocated"` to Ready,
`"ReadyRole"` to Running, `"Stopped"` to Ready, `"RoleStateUnknown"` to
Unknown, and any unrecognized raw status to Unknown with exactly one log
event; the recognized cases emit no log. -/
theorem getStatusSwitch_spec :
    getStatusSwitch "StoppedDeallocated" = (VM_READY, 0) ∧
    getStatusSwitch "ReadyRole" = (VM_RUNNING, 0) ∧
    getStatusSwitch "Stopped" = (VM_READY, 0) ∧
    getStatusSwitch "RoleStateUnknown" = (VM_UNKNOWN, 0) ∧
    ∀ raw : String, raw ≠ "StoppedDeallocated" → raw ≠ "ReadyRole" →
      raw ≠ "Stopped" → raw ≠ "RoleStateUnknown" →
      getStatusSwitch raw = (VM_UNKNOWN, 1) := by
  refine ⟨by decide, by decide, by decide, by decide, ?_⟩
  intro raw h1 h2 h3 h4
  simp [getStatusSwitch, h1, h2, h3, h4]

/-- Witness for C2 at the unrecognized raw status `"BusyRole"`. -/
theorem getStatusSwitch_spec_witness :
    getStatusSwitch "BusyRole" = (VM_UNKNOWN, 1) :=
  getStatusSwitch_spec.2.2.2.2 "BusyRole" (by decide) (by decide) (by decide)
    (by decide)

/-- C4: with no instance view present, `GetStatus` performs exactly one
refresh attempt; a failed refresh yields the Unknown status as a value (one
log, no error), a successful refresh with raw status `"ReadyRole"` yields
Running; with an instance view already present no refresh is performed. -/
theorem GetStatus_refresh_policy (self : SClassicInstance)
    (refreshResult : Except String SClassicInstance) :
    (self.Properties.InstanceView = none →
      (∀ e, refreshResult = .error e →
        GetStatus self refreshResult = some ⟨VM_UNKNOWN, 1, 1⟩) ∧
      (∀ inst view, refreshResult = .ok inst →
        inst.Properties.InstanceView = some view → view.Status = "ReadyRole" →
        GetStatus self refreshResult = some ⟨VM_RUNNING, 1, 0⟩)) ∧
    (∀ view, self.Properties.InstanceView = some view →
      GetStatus self refreshResult =
        some ⟨(getStatusSwitch view.Status).1, 0, (getStatusSwitch view.Status).2⟩) := by
  constructor
  · intro hnone
    constructor
    · intro e he
      subst he
      simp [GetStatus, hnone]
    · intro inst view hok hview hstat
      subst hok
      simp [GetStatus, hnone, hview, hstat, getStatusSwitch]
  · intro view hview
    simp [GetStatus, hview]

/-- Concrete instance with no instance view, for witnesses. -/
def instNoView : SClassicInstance := { ID := "vm0", Name := "vm0" }

/-- Concrete instance whose view reports the raw status `"ReadyRole"`. -/
def instReadyRole : SClassicInstance :=
  { ID := "vm0", Name := "vm0",
    Properties := { InstanceView := some { Status := "ReadyRole" } } }

/-- Witness for C4: a never-fetched instance whose refresh succeeds with raw
status `"ReadyRole"` gets Running after exactly one refresh. -/
theorem GetStatus_refresh_policy_witness :
    GetStatus instNoView (.ok instReadyRole) = some ⟨VM_RUNNING, 1, 0⟩ :=
  ((GetStatus_refresh_policy instNoView (.ok instReadyRole)).1 rfl).2
    instReadyRole { Status := "ReadyRole" } rfl rfl rfl

/-- Modelled from the spec: the attachment part of a classic elastic IP record
(`ClassicEipProperties` lives in the sibling eip file; this file reads its
`AttachedTo` field and fills `IpAddress` for the synthesized fallback). -/
structure ClassicEipProperties where
  IpAddress : String := ""
  AttachedTo : Option SubResource := none
deriving Repr, DecidableEq

/-- Modelled from the spec: the classic elastic IP record returned by the EIP
resolver (`SClassicEipAddress` lives in the sibling eip file; this file sets
its `instanceId`, reads `Properties.AttachedTo`, and builds the fallback from
`ID`, `Name` and `Properties.IpAddress`; the `region` back-pointer carries no
data). -/
structure SClassicEipAddress where
  ID : String := ""
  instanceId : String := ""
  Name : String := ""
  Properties : ClassicEipProperties := {}
deriving Repr, DecidableEq

/-- Outcome of the reserved-IP loop in `GetIEIP` (classic_instance.go lines
444-455): an accepted EIP, an immediate abort because the EIP is attached to a
different instance, or exhaustion after every fetch failed. -/
inductive EipScan where
  | found (eip : SClassicEipAddress)
  | reassigned
  | exhausted
deriving Repr, DecidableEq

/-- The `for _, reserveIp := range *ReservedIps` loop of `GetIEIP`
(classic_instance.go lines 444-455), returning the scan outcome and the number
of log events (one per failed `GetClassicEip` fetch). -/
def scanReservedIps (selfId : String)
    (GetClassicEip : String → Except String SClassicEipAddress) :
    List SubResource → EipScan × Nat
  | [] => (.exhausted, 0)
  | reserveIp :: rest =>
      match GetClassicEip reserveIp.ID with
      | .ok eip =>
          let eip := { eip with instanceId := selfId }
          match eip.Properties.AttachedTo with
          | some attached =>
              if attached.ID ≠ selfId then (.reassigned, 0) else (.found eip, 0)
          | none => (.found eip, 0)
      | .error _ =>
          let r := scanReservedIps selfId GetClassicEip rest
          (r.1, r.2 + 1)

/-- The public-IP fallback block of `GetIEIP` (classic_instance.go lines
457-468): synthesize an EIP record from the first address of the instance
view's public-IP list, if any. -/
def publicIpFallback (self : SClassicInstance) : Option SClassicEipAddress :=
  match self.Properties.InstanceView with
  | some view =>
      match view.PublicIpAddresses with
      | addr :: _ =>
          some { ID := self.ID, instanceId := self.ID, Name := addr,
                 Properties := { IpAddress := addr } }
      | [] => none
  | none => none

/-- `GetIEIP` (classic_instance.go lines 442-470). `GetClassicEip` gives the
outcome of each per-candidate remote fetch, keyed by the reserved IP's ID. The
result pairs the returned `(eip, error)` — `.ok none` is Go's `nil, nil` —
with the number of log events. -/
def GetIEIP (self : SClassicInstance)
    (GetClassicEip : String → Except String SClassicEipAddress) :
    Except String (Option SClassicEipAddress) × Nat :=
  match self.Properties.NetworkProfile.ReservedIps with
  | some reservedIps =>
      if reservedIps.length > 0 then
        match scanReservedIps self.ID GetClassicEip reservedIps with
        | (.found eip, logs) => (.ok (some eip), logs)
        | (.reassigned, logs) => (.ok none, logs)
        | (.exhausted, logs) => (.ok (publicIpFallback self), logs)
      else (.ok (publicIpFallback self), 0)
  | none => (.ok (publicIpFallback self), 0)

/-- Concrete EIP attached to a different instance than `"vm1"`. -/
def eipOther : SClassicEipAddress :=
  { ID := "eip1", Name := "eip1",
    Properties := { IpAddress := "1.1.1.1", AttachedTo := some { ID := "other" } } }

/-- Concrete EIP attached to `"vm1"` itself. -/
def eipMine : SClassicEipAddress :=
  { ID := "eip2", Name := "eip2",
    Properties := { IpAddress := "2.2.2.2", AttachedTo := some { ID := "vm1" } } }

/-- Fetch outcomes where `"eip1"` is attached elsewhere and `"eip2"` matches. -/
def fetchTwoEips : String → Except String SClassicEipAddress :=
  fun rid =>
    if rid = "eip1" then .ok eipOther
    else if rid = "eip2" then .ok eipMine
    else .error "not found"

/-- Instance `"vm1"` listing the two reserved IPs `"eip1"` and `"eip2"`. -/
def instTwoReserved : SClassicInstance :=
  { ID := "vm1", Name := "vm1",
    Properties :=
      { NetworkProfile :=
          { ReservedIps := some [{ ID := "eip1" }, { ID := "eip2" }] } } }

/-- C3 counterexample: instance `"vm1"` has reserved IPs `"eip1"` (fetches
successfully, attached to instance `"other"`) and `"eip2"` (fetches
successfully, attached to `"vm1"`). The claim says `"eip1"` is skipped and
`"eip2"` is tried next and returned; the code instead returns no address
immediately. -/
theorem GetIEIP_reassigned_not_skipped :
    GetIEIP instTwoReserved fetchTwoEips = (.ok none, 0) ∧
    GetIEIP instTwoReserved fetchTwoEips ≠
      (.ok (some { eipMine with instanceId := "vm1" }), 0) := by
  have hval : GetIEIP instTwoReserved fetchTwoEips = (.ok none, 0) := rfl
  refine ⟨hval, ?_⟩
  rw [hval]
  simp

/-- C3 amended: a successfully fetched reserved IP attached to a different
instance makes `GetIEIP` return no address immediately (remaining candidates
are not tried and the public-IP fallback is not consulted); a candidate whose
fetch fails is skipped in favour of the next; a fetched reserved IP with
absent attachment is accepted; exhaustion of all candidates by fetch failures
falls back to the instance view's first public IP; with no reserved IPs and no
instance view the result is none, not an error. -/
theorem GetIEIP_resolution_order (self : SClassicInstance) (selfId : String)
    (fetch : String → Except String SClassicEipAddress) (r : SubResource)
    (rest ips : List SubResource) (eip : SClassicEipAddress)
    (attached : SubResource) (e : String) (logs : Nat) :
    (fetch r.ID = .ok eip → eip.Properties.AttachedTo = some attached →
      attached.ID ≠ selfId →
      scanReservedIps selfId fetch (r :: rest) = (.reassigned, 0)) ∧
    (fetch r.ID = .ok eip → eip.Properties.AttachedTo = none →
      scanReservedIps selfId fetch (r :: rest) =
        (.found { eip with instanceId := selfId }, 0)) ∧
    (fetch r.ID = .error e →
      scanReservedIps selfId fetch (r :: rest) =
        ((scanReservedIps selfId fetch rest).1,
         (scanReservedIps selfId fetch rest).2 + 1)) ∧
    (self.Properties.NetworkProfile.ReservedIps = some ips → ips.length > 0 →
      scanReservedIps self.ID fetch ips = (.reassigned, logs) →
      GetIEIP self fetch = (.ok none, logs)) ∧
    (self.Properties.NetworkProfile.ReservedIps = some ips → ips.length > 0 →
      scanReservedIps self.ID fetch ips = (.exhausted, logs) →
      GetIEIP self fetch = (.ok (publicIpFallback self), logs)) ∧
    (self.Properties.NetworkProfile.ReservedIps = none →
      self.Properties.InstanceView = none →
      GetIEIP self fetch = (.ok none, 0)) := by
  refine ⟨?_, ?_, ?_, ?_, ?_, ?_⟩
  · intro hf hatt hne
    simp [scanReservedIps, hf, hatt, hne]
  · intro hf hatt
    simp [scanReservedIps, hf, hatt]
  · intro hf
    simp [scanReservedIps, hf]
  · intro hres hlen hscan
    simp [GetIEIP, hres, hlen, hscan]
  · intro hres hlen hscan
    simp [GetIEIP, hres, hlen, hscan]
  · intro hres hview
    simp [GetIEIP, hres, publicIpFallback, hview]

/-- Concrete EIP attached to a third instance, used for witnesses. -/
def eipW : SClassicEipAddress :=
  { ID := "eipw", Name := "eipw",
    Properties := { IpAddress := "4.4.4.4", AttachedTo := some { ID := "otherw" } } }

/-- Fetch that always succeeds with `eipW`. -/
def fetchW : String → Except String SClassicEipAddress := fun _ => .ok eipW

/-- Witness for C3 amended: a reserved IP attached to instance `"otherw"`
aborts the scan for instance `"vmw"` at once. -/
theorem GetIEIP_resolution_order_witness :
    scanReservedIps "vmw" fetchW [{ ID := "eipw" }] = (.reassigned, 0) :=
  (GetIEIP_resolution_order instNoView "vmw" fetchW { ID := "eipw" } [] []
    eipW { ID := "otherw" } "e" 0).1 rfl rfl (by decide)

/-- Concrete EIP attached to yet another instance, for the C8 counterexample. -/
def eipElse : SClassicEipAddress :=
  { ID := "eipX", Name := "eipX",
    Properties := { IpAddress := "3.3.3.3", AttachedTo := some { ID := "someoneelse" } } }

/-- Fetch that always succeeds with `eipElse`. -/
def fetchElse : String → Except String SClassicEipAddress := fun _ => .ok eipElse

/-- Instance `"vm2"` with one reserved IP and a non-empty public-IP list. -/
def instReservedAndPublic : SClassicInstance :=
  { ID := "vm2", Name := "vm2",
    Properties :=
      { NetworkProfile := { ReservedIps := some [{ ID := "eipX" }] },
        InstanceView := some { PublicIpAddresses := ["9.9.9.9"] } } }

/-- C8 counterexample: instance `"vm2"` has one reserved IP that fetches
successfully but is attached to `"someoneelse"`, and a non-empty public-IP
list. The code returns none although the candidates were not exhausted and
the public-IP fallback was available, contradicting that only total
exhaustion of both sources yields none. -/
theorem GetIEIP_none_without_exhaustion :
    GetIEIP instReservedAndPublic fetchElse = (.ok none, 0) ∧
    publicIpFallback instReservedAndPublic ≠ none := by
  refine ⟨rfl, ?_⟩
  simp [publicIpFallback, instReservedAndPublic]

theorem scanReservedIps_all_fail (selfId : String)
    (fetch : String → Except String SClassicEipAddress) (ips : List SubResource)
    (h : ∀ x ∈ ips, ∃ ex, fetch x.ID = .error ex) :
    scanReservedIps selfId fetch ips = (.exhausted, ips.length) := by
  induction ips with
  | nil => simp [scanReservedIps]
  | cons r rest ih =>
      obtain ⟨ex, hex⟩ := h r (by simp)
      have hrest := ih (fun x hx => h x (by simp [hx]))
      simp [scanReservedIps, hex, hrest]

theorem GetIEIP_never_error (self : SClassicInstance)
    (fetch : String → Except String SClassicEipAddress) (e : String) :
    (GetIEIP self fetch).1 ≠ .error e := by
  unfold GetIEIP
  rcases self.Properties.NetworkProfile.ReservedIps with _ | ips
  · simp
  · by_cases hlen : ips.length > 0
    · rcases hscan : scanReservedIps self.ID fetch ips with ⟨res, logs⟩
      cases res <;> simp [hlen, hscan]
    · simp [hlen]

/-- C8 amended: a reserved-IP candidate whose fetch fails is logged and the
next candidate is tried; `GetIEIP` never surfaces a per-candidate failure as
an error; when every candidate's fetch fails the resolver falls back to the
public-IP list with one log per candidate (yielding none only when that
fallback is empty too); but a candidate attached to a different instance also
yields none without exhaustion. -/
theorem GetIEIP_candidate_failures (self : SClassicInstance)
    (fetch : String → Except String SClassicEipAddress) (r : SubResource)
    (rest : List SubResource) (e : String) :
    (fetch r.ID = .error e →
      scanReservedIps self.ID fetch (r :: rest) =
        ((scanReservedIps self.ID fetch rest).1,
         (scanReservedIps self.ID fetch rest).2 + 1)) ∧
    (∀ e2, (GetIEIP self fetch).1 ≠ .error e2) ∧
    (self.Properties.NetworkProfile.ReservedIps = some (r :: rest) →
      (∀ x ∈ r :: rest, ∃ ex, fetch x.ID = .error ex) →
      GetIEIP self fetch = (.ok (publicIpFallback self), (r :: rest).length)) := by
  refine ⟨?_, fun e2 => GetIEIP_never_error self fetch e2, ?_⟩
  · intro hf
    simp [scanReservedIps, hf]
  · intro hres hall
    have hscan := scanReservedIps_all_fail self.ID fetch (r :: rest) hall
    simp [GetIEIP, hres, hscan]

/-- Instance with one reserved IP and no instance view, for the C8 witness. -/
def instOneReserved : SClassicInstance :=
  { ID := "vm3", Name := "vm3",
    Properties := { NetworkProfile := { ReservedIps := some [{ ID := "eipw2" }] } } }

/-- Fetch that always fails. -/
def fetchFailAll : String → Except String SClassicEipAddress :=
  fun _ => .error "boom"

/-- Witness for C8 amended: with a single candidate whose fetch fails and no
public IPs, the resolver logs once and yields none without error. -/
theorem GetIEIP_candidate_failures_witness :
    GetIEIP instOneReserved fetchFailAll = (.ok none, 1) := by
  have h := (GetIEIP_candidate_failures instOneReserved fetchFailAll
    { ID := "eipw2" } [] "boom").2.2 rfl (fun x _ => ⟨"boom", rfl⟩)
  simpa using h

/-- Outcome of a lifecycle operation: either the triggering remote action's
error returned immediately, or delegation to `cloudprovider.WaitStatus` with
the expected status, the poll interval and the timeout (both in seconds). -/
inductive VMOpResult where
  | err (e : String)
  | waited (expected : String) (intervalSec : Nat) (timeoutSec : Nat)
deriving Repr, DecidableEq

/-- A lifecycle operation's trace: how many times the triggering remote action
was issued, and the result. -/
structure LifecycleOut where
  actionCount : Nat
  result : VMOpResult
deriving Repr, DecidableEq

/-- `StartVM` (classic_instance.go lines 422-427). `startResult` is the
outcome of `region.StartVM(self.ID)` (`none` = success). -/
def StartVM (self : SClassicInstance) (startResult : Option String) :
    LifecycleOut :=
  match startResult with
  | some e => ⟨1, .err e⟩
  | none => ⟨1, .waited VM_RUNNING 10 300⟩

/-- `StopVM` (classic_instance.go lines 429-435). `stopResult` is the outcome
of `region.StopClassicVM(self.ID, opts.IsForce)`, itself a single `perform`
of the `"shutdown"` action (lines 437-440). -/
def StopVM (self : SClassicInstance) (stopResult : Option String) :
    LifecycleOut :=
  match stopResult with
  | some e => ⟨1, .err e⟩
  | none => ⟨1, .waited VM_READY 10 300⟩

/-- `AttachDisk` (classic_instance.go lines 269-275). `refreshResult` feeds
the initial `GetStatus` call; `attachResult` is the outcome of
`region.AttachDisk(self.ID, diskId)`. `none` models the nil-dereference crash
inherited from `GetStatus`. -/
def AttachDisk (self : SClassicInstance)
    (refreshResult : Except String SClassicInstance)
    (attachResult : Option String) : Option LifecycleOut :=
  match GetStatus self refreshResult with
  | none => none
  | some st =>
      match attachResult with
      | some e => some ⟨1, .err e⟩
      | none => some ⟨1, .waited st.status 10 300⟩

/-- `DetachDisk` (classic_instance.go lines 277-283), same shape as
`AttachDisk` with `region.DetachDisk`. -/
def DetachDisk (self : SClassicInstance)
    (refreshResult : Except String SClassicInstance)
    (detachResult : Option String) : Option LifecycleOut :=
  match GetStatus self refreshResult with
  | none => none
  | some st =>
      match detachResult with
      | some e => some ⟨1, .err e⟩
      | none => some ⟨1, .waited st.status 10 300⟩

/-- C5: start, stop, attach-disk and detach-disk issue their triggering remote
action exactly once, return its error immediately with no polling when it
fails, and otherwise delegate to the wait-for-status primitive with a
10-second interval and 300-second timeout; start waits for Running, stop for
Ready, attach and detach for the status observed before the action. -/
theorem lifecycle_ops_delegate (self : SClassicInstance) (e : String)
    (refreshResult : Except String SClassicInstance) (st : GetStatusOut) :
    StartVM self (some e) = ⟨1, .err e⟩ ∧
    StartVM self none = ⟨1, .waited VM_RUNNING 10 300⟩ ∧
    StopVM self (some e) = ⟨1, .err e⟩ ∧
    StopVM self none = ⟨1, .waited VM_READY 10 300⟩ ∧
    (GetStatus self refreshResult = some st →
      AttachDisk self refreshResult (some e) = some ⟨1, .err e⟩ ∧
      AttachDisk self refreshResult none = some ⟨1, .waited st.status 10 300⟩ ∧
      DetachDisk self refreshResult (some e) = some ⟨1, .err e⟩ ∧
      DetachDisk self refreshResult none = some ⟨1, .waited st.status 10 300⟩) := by
  refine ⟨rfl, rfl, rfl, rfl, ?_⟩
  intro hst
  refine ⟨?_, ?_, ?_, ?_⟩ <;> simp [AttachDisk, DetachDisk, hst]

/-- Witness for C5: attaching a disk to a Running instance with a failing
remote action returns the error with no polling; with a succeeding action it
waits for the pre-action status Running. -/
theorem lifecycle_ops_delegate_witness :
    AttachDisk instReadyRole (.error "unused") (some "attach failed") =
      some ⟨1, .err "attach failed"⟩ ∧
    AttachDisk instReadyRole (.error "unused") none =
      some ⟨1, .waited VM_RUNNING 10 300⟩ :=
  ⟨((lifecycle_ops_delegate instReadyRole "attach failed" (.error "unused")
      ⟨VM_RUNNING, 0, 0⟩).2.2.2.2 rfl).1,
   ((lifecycle_ops_delegate instReadyRole "attach failed" (.error "unused")
      ⟨VM_RUNNING, 0, 0⟩).2.2.2.2 rfl).2.1⟩

/-- Trace of `DeleteVM`: the returned error and, for each `region.del` call
issued, the resource ID together with the del outcome that the Go code
discards. -/
structure DeleteVMOut where
  result : Option String
  delCalls : List (String × Option String)
deriving Repr, DecidableEq

/-- `DeleteVM` (classic_instance.go lines 319-330). `deleteVMResult` is the
outcome of `region.DeleteVM(self.ID)`; `delResult` gives the outcome of each
`region.del` call by resource ID. The Go code ignores the return values of
both `del` calls. -/
def DeleteVM (self : SClassicInstance) (deleteVMResult : Option String)
    (delResult : String → Option String) : DeleteVMOut :=
  match deleteVMResult with
  | some e => ⟨some e, []⟩
  | none =>
      let secgroupCalls :=
        match self.Properties.NetworkProfile.NetworkSecurityGroup with
        | some sg => [(sg.ID, delResult sg.ID)]
        | none => []
      let domainCalls :=
        match self.Properties.DomainName with
        | some d => [(d.ID, delResult d.ID)]
        | none => []
      ⟨none, secgroupCalls ++ domainCalls⟩

/-- Instance with an attached network security group and a domain name. -/
def instWithSecgroup : SClassicInstance :=
  { ID := "vm4", Name := "vm4",
    Properties :=
      { NetworkProfile := { NetworkSecurityGroup := some { ID := "sg1", Name := "sg1" } },
        DomainName := some { ID := "dom1", Name := "dom1" } } }

/-- C6 counterexample: deleting instance `"vm4"` succeeds remotely, the
follow-up `region.del` of its security group and domain name both fail, yet
`DeleteVM` returns success — those remote failures are silently swallowed,
contradicting the claim that the deletions inside DeleteVM propagate errors. -/
theorem DeleteVM_swallows_del_errors :
    (DeleteVM instWithSecgroup none (fun _ => some "remote failure")).result = none ∧
    (DeleteVM instWithSecgroup none (fun _ => some "remote failure")).delCalls =
      [("sg1", some "remote failure"), ("dom1", some "remote failure")] := by
  exact ⟨rfl, rfl⟩

/-- Modelled from the spec: the classic security group record fetched by
`AssignSecurityGroup` (`GetClassicSecurityGroupDetails` lives in a sibling
file; only the `ID` and `Name` fields are read here). -/
structure SClassicSecurityGroup where
  ID : String := ""
  Name : String := ""
deriving Repr, DecidableEq

/-- Trace of `AssignSecurityGroup`: the returned error and the remote calls
issued, in order. A `del` call's discarded outcome is recorded alongside it. -/
structure AssignOut where
  result : Option String
  remoteCalls : List String
deriving Repr, DecidableEq

/-- `AssignSecurityGroup` (classic_instance.go lines 487-510). `getSecgroup`
is the outcome of `GetClassicSecurityGroupDetails(secgroupId)`; `delResult`
the (discarded) outcome of the `region.del` of the previous association;
`updateResult` the outcome of the final `region.update` carrying the
`assignSecurityGroup` payload. -/
def AssignSecurityGroup (self : SClassicInstance) (secgroupId : String)
    (getSecgroup : Except String SClassicSecurityGroup)
    (delResult : Option String) (updateResult : Option String) : AssignOut :=
  let proceed : List String → AssignOut := fun calls =>
    match getSecgroup with
    | .error e => ⟨some e, calls ++ ["get " ++ secgroupId]⟩
    | .ok secgroup =>
        ⟨updateResult,
         calls ++ ["get " ++ secgroupId,
                   "update " ++ self.ID ++ "/associatedNetworkSecurityGroups/" ++ secgroup.Name]⟩
  match self.Properties.NetworkProfile.NetworkSecurityGroup with
  | some sg =>
      if sg.ID = secgroupId then ⟨none, []⟩
      else
        let _ := delResult
        proceed ["del " ++ self.ID ++ "/associatedNetworkSecurityGroups/" ++ sg.Name]
  | none => proceed []

/-- C10: assigning the security group that is already referenced by the
instance's network profile succeeds immediately with no remote call. -/
theorem AssignSecurityGroup_idempotent (self : SClassicInstance)
    (secgroupId : String) (getSecgroup : Except String SClassicSecurityGroup)
    (delResult updateResult : Option String) (sg : SubResource)
    (hsg : self.Properties.NetworkProfile.NetworkSecurityGroup = some sg)
    (hid : sg.ID = secgroupId) :
    AssignSecurityGroup self secgroupId getSecgroup delResult updateResult =
      ⟨none, []⟩ := by
  simp [AssignSecurityGroup, hsg, hid]

/-- Witness for C10: instance `"vm4"` already references security group
`"sg1"`; assigning `"sg1"` again is a no-op success even when every remote
call would fail. -/
theorem AssignSecurityGroup_idempotent_witness :
    AssignSecurityGroup instWithSecgroup "sg1" (.error "would fail")
      (some "would fail") (some "would fail") = ⟨none, []⟩ :=
  AssignSecurityGroup_idempotent instWithSecgroup "sg1" (.error "would fail")
    (some "would fail") (some "would fail") { ID := "sg1", Name := "sg1" } rfl rfl

/-- C6 amended: a failing remote call makes its operation return that error —
the VM deletion inside DeleteVM, the instance fetch inside getNics, the
security-group fetch and the final update inside AssignSecurityGroup, and the
triggering actions of start and stop all propagate their error — except that
the best-effort `region.del` calls inside DeleteVM (security group and domain
name) have their outcomes discarded, so DeleteVM still returns success when
they fail, and the `region.del` of the previous association inside
AssignSecurityGroup is likewise discarded and never affects its result (the
previously noted exceptions, unrecognized statuses and per-candidate EIP
lookup failures, stand). -/
theorem remote_errors_propagated (self : SClassicInstance) (e : String)
    (secgroupId : String) (sg : SClassicSecurityGroup)
    (delResult updateResult : Option String)
    (delFail : String → Option String) :
    (DeleteVM self (some e) delFail).result = some e ∧
    (DeleteVM self none delFail).result = none ∧
    getNics self (.error e) = .error e ∧
    (self.Properties.NetworkProfile.NetworkSecurityGroup = none →
      (AssignSecurityGroup self secgroupId (.error e) delResult updateResult).result
        = some e ∧
      (AssignSecurityGroup self secgroupId (.ok sg) delResult updateResult).result
        = updateResult) ∧
    (∀ sg0 : SubResource,
      self.Properties.NetworkProfile.NetworkSecurityGroup = some sg0 →
      sg0.ID ≠ secgroupId →
      (AssignSecurityGroup self secgroupId (.error e) delResult updateResult).result
        = some e ∧
      (AssignSecurityGroup self secgroupId (.ok sg) delResult updateResult).result
        = updateResult) ∧
    (StartVM self (some e)).result = .err e ∧
    (StopVM self (some e)).result = .err e := by
  refine ⟨rfl, ?_, rfl, ?_, ?_, rfl, rfl⟩
  · simp [DeleteVM]
  · intro hnone
    constructor <;> simp [AssignSecurityGroup, hnone]
  · intro sg0 hsome hne
    constructor <;> simp [AssignSecurityGroup, hsome, hne]

/-- Witness for C6 amended: the main deletion error is propagated for
instance `"vm4"`, and a failing security-group fetch error is propagated by
AssignSecurityGroup on an instance with no current security group. -/
theorem remote_errors_propagated_witness :
    (DeleteVM instWithSecgroup (some "api down") (fun _ => some "x")).result
      = some "api down" ∧
    (AssignSecurityGroup instNoView "sgZ" (.error "api down") none none).result
      = some "api down" :=
  ⟨(remote_errors_propagated instWithSecgroup "api down" "sgZ" {} none none
      (fun _ => some "x")).1,
   ((remote_errors_propagated instNoView "api down" "sgZ" {} none none
      (fun _ => some "x")).2.2.2.1 rfl).1⟩

/-- Modelled from the spec: the sentinel errors of the cloudprovider package
(`ErrNotSupported`, `ErrNotImplemented`) returned by unimplemented
operations. -/
inductive CloudErr where
  | notSupported
  | notImplemented
deriving Repr, DecidableEq

/-- `GetVNCInfo` (classic_instance.go lines 418-420): one `return nil,
cloudprovider.ErrNotSupported`. The result is the `(output, error)` pair plus
the number of remote calls issued. -/
def GetVNCInfo (self : SClassicInstance) (input : Option String) :
    (Option String × CloudErr) × Nat := ((none, .notSupported), 0)

/-- `Renew` (classic_instance.go lines 528-530). The billing cycle argument is
abstracted as a string. -/
def Renew (self : SClassicInstance) (bc : String) : CloudErr × Nat :=
  (.notSupported, 0)

/-- `UpdateUserData` (classic_instance.go lines 524-526). -/
def UpdateUserData (self : SClassicInstance) (userData : String) :
    CloudErr × Nat := (.notSupported, 0)

/-- `SetSecurityGroups` (classic_instance.go lines 483-485). -/
def SetSecurityGroups (self : SClassicInstance) (secgroupIds : List String) :
    CloudErr × Nat := (.notSupported, 0)

/-- C7: console access, billing renewal, user-data update and
set-security-groups return NotSupported for every input, issuing zero remote
calls. -/
theorem unsupported_ops_return_notSupported (self : SClassicInstance)
    (input : Option String) (bc userData : String) (secgroupIds : List String) :
    GetVNCInfo self input = ((none, .notSupported), 0) ∧
    Renew self bc = (CloudErr.notSupported, 0) ∧
    UpdateUserData self userData = (CloudErr.notSupported, 0) ∧
    SetSecurityGroups self secgroupIds = (CloudErr.notSupported, 0) :=
  ⟨rfl, rfl, rfl, rfl⟩

/-- Modelled from the spec: one entry of the global VM-size lookup table
(`CLASSIC_VM_SIZES`, size SKU → cores and memory in MB); the table lives
outside this file and is passed as a parameter. -/
structure SVMSize where
  NumberOfCores : Int := 0
  MemoryInMB : Int := 0
deriving Repr, DecidableEq

/-- `GetVcpuCount` (classic_instance.go lines 402-408): the returned core
count plus the number of log events. -/
def GetVcpuCount (self : SClassicInstance)
    (CLASSIC_VM_SIZES : String → Option SVMSize) : Int × Nat :=
  match CLASSIC_VM_SIZES self.Properties.HardwareProfile.Size with
  | some vmSize => (vmSize.NumberOfCores, 0)
  | none => (0, 1)

/-- `GetVmemSizeMB` (classic_instance.go lines 410-416). -/
def GetVmemSizeMB (self : SClassicInstance)
    (CLASSIC_VM_SIZES : String → Option SVMSize) : Int × Nat :=
  match CLASSIC_VM_SIZES self.Properties.HardwareProfile.Size with
  | some vmSize => (vmSize.MemoryInMB, 0)
  | none => (0, 1)

/-- C9: for a hardware-profile size absent from the lookup table,
`GetVcpuCount` and `GetVmemSizeMB` each log once and return zero as a plain
value (their result type carries no error and the functions are total). -/
theorem vmsize_absent_returns_zero (self : SClassicInstance)
    (CLASSIC_VM_SIZES : String → Option SVMSize)
    (h : CLASSIC_VM_SIZES self.Properties.HardwareProfile.Size = none) :
    GetVcpuCount self CLASSIC_VM_SIZES = (0, 1) ∧
    GetVmemSizeMB self CLASSIC_VM_SIZES = (0, 1) := by
  constructor <;> simp [GetVcpuCount, GetVmemSizeMB, h]

/-- Witness for C9: with an empty lookup table, both getters degrade to zero
with one log each. -/
theorem vmsize_absent_returns_zero_witness :
    GetVcpuCount instNoView (fun _ => none) = (0, 1) ∧
    GetVmemSizeMB instNoView (fun _ => none) = (0, 1) :=
  vmsize_absent_returns_zero instNoView (fun _ => none) rfl

end AzureClassic
